import Mathlib

/-!
Verification development for the hwcomponents resolution and aggregation
engine.  The definitions below are shallow embeddings of the Python source
under `src/hwcomponents/`: the candidate-resolution loop of
`select_models.py` / `select_estimators.py`, the `@action` aggregation
wrapper and `ComponentModel` of `model.py`, and the `Estimation` value
types of `estimator_wrapper.py`.  Numbers are embedded as rationals,
Python dicts as association lists, and exceptions as `Except`.
-/

namespace HWC

/-- Decidable equality for `Except` results, so that concrete runs of
the embedded code can be checked by `decide`. -/
instance exceptDecEq {ε α : Type} [DecidableEq ε] [DecidableEq α] :
    DecidableEq (Except ε α) := fun a b =>
  match a, b with
  | .ok x, .ok y =>
      if h : x = y then isTrue (by rw [h]) else isFalse (by simp [h])
  | .error x, .error y =>
      if h : x = y then isTrue (by rw [h]) else isFalse (by simp [h])
  | .ok _, .error _ => isFalse (by simp)
  | .error _, .ok _ => isFalse (by simp)

/-- An attribute value in a query's attribute mapping (a Python dict can
hold strings or numbers; these are the kinds the engine inspects). -/
inductive Val where
  | str (s : String)
  | num (q : ℚ)
deriving DecidableEq, Repr

/-- Look up a key in an association list (Python `dict.get(k)`). -/
def lookupVal (attrs : List (String × Val)) (key : String) : Option Val :=
  match attrs.find? (fun p => p.1 = key) with
  | some p => some p.2
  | none => none

/-- `dict.get(k)` restricted to numeric values (how `min_priority`,
`min_accuracy` and `n_instances` are consumed). -/
def lookupNum (attrs : List (String × Val)) (key : String) : Option ℚ :=
  match lookupVal attrs key with
  | some (.num q) => some q
  | _ => none

/-- Embedding of `EnergyAreaQuery` (`estimator_wrapper.py`): component
name, attribute dict, optional action name and arguments.  `None`-valued
entries are already filtered out at construction in the source, so the
association lists hold only present values. -/
structure Query where
  componentName : String
  componentAttributes : List (String × Val)
  actionName : Option String
  actionArguments : List (String × Val)
deriving DecidableEq, Repr

/-- Embedding of `Estimation` / `FloatEstimation`
(`estimator_wrapper.py`): numeric value, success flag, message trail and
the attribution (`model_name` in `_model_wrapper`, `estimator_name` in
`estimator_wrapper`). -/
structure Estimation where
  value : ℚ
  success : Bool
  messages : List String
  name : Option String
deriving DecidableEq, Repr

/-- `Estimation.fail`: mark failed and append the message. -/
def Estimation.fail (e : Estimation) (msg : String) : Estimation :=
  { e with success := false, messages := e.messages ++ [msg] }

/-- `Estimation.add_messages` with a pure list (the aliasing behaviour of
the Python list is modelled separately for the frame-effect claim). -/
def Estimation.addMsgs (e : Estimation) (msgs : List String) : Estimation :=
  { e with messages := e.messages ++ msgs }

/-- `Estimation.lastmessage`. -/
def Estimation.lastmessage (e : Estimation) : String :=
  match e.messages.getLast? with
  | some m => m
  | none => "No messages found."

/-- `FloatEstimation.__mul__` with a plain number: value is scaled,
success, messages and attribution are kept. -/
def Estimation.scaleBy (e : Estimation) (n : ℚ) : Estimation :=
  { e with value := e.value * n }

/-- Embedding of `EnergyAreaModelWrapper` (`_model_wrapper` /
`estimator_wrapper.py`): the wrapper's name (`get_name()`), the lowered
component-name aliases, the class `priority`, the constructor's
non-default parameter names, and the wrapped estimation behaviours
(`estimate_energy` / `estimate_area` / `estimate_leak_power`), abstracted
as functions from the query to an estimation or a raised exception. -/
structure ModelW where
  name : String
  names : List String
  priority : ℚ
  requiredInitArgs : List String
  estimateEnergy : Query → Except String Estimation
  estimateArea : Query → Except String Estimation
  estimateLeakPower : Query → Except String Estimation

/-- The estimator-generation wrapper (`estimator_wrapper.py`), which
ranks by `percent_accuracy_0_to_100` instead of `priority`. -/
structure EstimatorW where
  name : String
  names : List String
  percentAccuracy : ℚ
  requiredInitArgs : List String

/-- Post-hoc check from `_call_model` (`select_models.py` lines 57-58):
fail when the caller requested a specific `model` name and this is not
it.  `attrs.get("model", estimation.model_name) != estimation.model_name`. -/
def modelCheck (m : ModelW) (q : Query) (e : Estimation) : Estimation :=
  match lookupVal q.componentAttributes "model" with
  | some v => if v ≠ .str m.name then e.fail ("Model " ++ m.name ++ " did not match requested model") else e
  | none => e

/-- Post-hoc check from `_call_model` (`select_models.py` lines 59-60):
`attrs.get("min_priority", -float("inf")) > model.model_cls.priority`
fails the estimation (strict comparison; an absent key is minus
infinity, which never exceeds the priority). -/
def minPriorityCheck (m : ModelW) (q : Query) (e : Estimation) : Estimation :=
  match lookupNum q.componentAttributes "min_priority" with
  | some mp => if m.priority < mp then e.fail ("Model " ++ m.name ++ " did not meet min_priority") else e
  | none => e

/-- `_call_model` (`select_models.py` lines 30-61): run the target
function; an exception becomes a failed zero estimation carrying the
error text; otherwise set the attribution and apply the post-hoc
requested-model and minimum-priority checks. -/
def callModel (m : ModelW) (q : Query)
    (targetFunc : Query → Except String Estimation) : Estimation :=
  match targetFunc q with
  | .error err =>
      { value := 0, success := false, messages := [err], name := some m.name }
  | .ok e =>
      minPriorityCheck m q (modelCheck m q { e with name := some m.name })

/-- Post-hoc check of `call_estimator` (`select_estimators.py` lines
52-53): fail when the caller requested a specific `estimator` name and
this is not it. -/
def estimatorNameCheck (est : EstimatorW) (q : Query) (e : Estimation) : Estimation :=
  match lookupVal q.componentAttributes "estimator" with
  | some v => if v ≠ .str est.name then e.fail ("Estimator " ++ est.name ++ " did not match requested estimator") else e
  | none => e

/-- Post-hoc check of `call_estimator` (`select_estimators.py` lines
54-58): `attrs.get("min_accuracy", -float("inf")) >
estimator.estimator_cls.percent_accuracy_0_to_100` fails the estimation
(strict comparison). -/
def minAccuracyCheck (est : EstimatorW) (q : Query) (e : Estimation) : Estimation :=
  match lookupNum q.componentAttributes "min_accuracy" with
  | some ma => if est.percentAccuracy < ma then e.fail ("Estimator " ++ est.name ++ " did not meet min_accuracy") else e
  | none => e

/-- `call_estimator` (`select_estimators.py` lines 25-59). -/
def callEstimator (est : EstimatorW) (q : Query)
    (targetFunc : Query → Except String Estimation) : Estimation :=
  match targetFunc q with
  | .error err =>
      { value := 0, success := false, messages := [err], name := some est.name }
  | .ok e =>
      minAccuracyCheck est q (estimatorNameCheck est q { e with name := some est.name })

/-- `query.component_attributes.get("n_instances", 1)`. -/
def nInstancesOf (q : Query) : ℚ :=
  match lookupNum q.componentAttributes "n_instances" with
  | some n => n
  | none => 1

/-- `_get_energy_estimation` (`select_models.py` lines 64-72): multiply
by `n_instances` only when the estimation is truthy (a nonzero float),
successful, and the action is exactly `leak`. -/
def getEnergyEstimation (m : ModelW) (q : Query) : Estimation :=
  let e := callModel m q m.estimateEnergy
  if e.value ≠ 0 ∧ e.success = true ∧ q.actionName = some "leak" then
    let n := nInstancesOf q
    (e.addMsgs ["Multiplying by n_instances"]).scaleBy n
  else e

/-- `_get_area_estimation` (`select_models.py` lines 75-83). -/
def getAreaEstimation (m : ModelW) (q : Query) : Estimation :=
  let e := callModel m q m.estimateArea
  if e.value ≠ 0 ∧ e.success = true then
    let n := nInstancesOf q
    (e.addMsgs ["Multiplying by n_instances"]).scaleBy n
  else e

/-- `_get_leak_power_estimation` (`select_models.py` lines 86-94). -/
def getLeakPowerEstimation (m : ModelW) (q : Query) : Estimation :=
  let e := callModel m q m.estimateLeakPower
  if e.value ≠ 0 ∧ e.success = true then
    let n := nInstancesOf q
    (e.addMsgs ["Multiplying by n_instances"]).scaleBy n
  else e

/-- Python `str.lower()` on the ASCII component names the engine
compares (each character lowercased). -/
def lowerString (s : String) : String :=
  ⟨s.data.map Char.toLower⟩

/-- Remove every underscore from a string (the relaxed name-matching
transformation: "Relaxed selection ignores underscores in the component
name", `select_models.py` docstrings and spec section 4.2). -/
def stripUnderscores (s : String) : String :=
  ⟨s.data.filter (fun c => c ≠ '_')⟩

/-- Modelled from the spec: `is_component_supported(query, relaxed)` of
the missing `_model_wrapper.py`.  Its exact-mode body is in src as
`estimator_wrapper.EnergyAreaEstimatorWrapper.is_component_supported`
(lines 367-380): return `False` when `query.component_name.lower()` is
not among the aliases; otherwise raise an `EstimatorError` naming the
first missing required constructor argument, else return `True`.  The
relaxed mode, per the spec ("relaxed (ignores underscores)") and the
`select_models.py` docstrings, compares names with underscores removed. -/
def isComponentSupported (m : ModelW) (q : Query) (relaxed : Bool) :
    Except String Bool :=
  let qn := lowerString q.componentName
  let nameMatch :=
    if relaxed then (m.names.map stripUnderscores).contains (stripUnderscores qn)
    else m.names.contains qn
  if nameMatch = false then .ok false
  else
    match m.requiredInitArgs.find? (fun a => lookupVal q.componentAttributes a = none) with
    | some a => .error ("Argument for __init__ is missing: " ++ a)
    | none => .ok true

/-- `_get_supported_models` (`select_models.py` lines 158-170): filter
the pool in order; a candidate raising during the eligibility check is
recorded as an initialization error instead. -/
def partitionSupported (q : Query) (relaxed : Bool) :
    List ModelW → List ModelW × List (String × String)
  | [] => ([], [])
  | m :: rest =>
      let p := partitionSupported q relaxed rest
      match isComponentSupported m q relaxed with
      | .ok true => (m :: p.1, p.2)
      | .ok false => p
      | .error e => (p.1, (m.name, e) :: p.2)

/-- The trial loop of `_get_best_estimate` (`select_models.py` lines
212-229): call the estimation function on each supported model in list
order; stop at the first success; record each failure with the model's
priority.  The `for`/`else` leaves `estimation = None` when no candidate
succeeded. -/
def trialModels (estFn : ModelW → Query → Estimation) (q : Query) :
    List ModelW → Option Estimation × List (ℚ × Estimation)
  | [] => (none, [])
  | m :: rest =>
      let e := estFn m q
      if e.success then (some e, [])
      else
        let t := trialModels estFn q rest
        (t.1, (m.priority, e) :: t.2)

/-- `set.union(*[set(p.get_component_names()) for p in models])`,
then `sorted(...)` (`select_models.py` lines 181, 206). -/
def supportedClassesOf (models : List ModelW) : List String :=
  ((models.flatMap (fun m => m.names)).dedup).insertionSort (fun a b => a ≤ b)

/-- The "did you mean" suggestions (`select_models.py` lines 184-192):
only when the primary pass was exact, the names of the models supported
under relaxed matching. -/
def suggestionsOf (q : Query) (relaxed : Bool) (models : List ModelW) :
    List String :=
  if relaxed = false then ((partitionSupported q true models).1).map (fun m => m.name)
  else []

/-- The distinct terminal errors `_get_best_estimate` can raise
(`select_models.py` lines 176-210 and 274-279), as a structured type:
the raise sites produce distinct `EstimatorError` / `RuntimeError`
messages, carried here as distinct constructors with the data each
message interpolates. -/
inductive ResolverError where
  | noModelsFound
  | initFailure (suggestions : List String) (failed : List (String × String))
  | notSupported (componentName : String) (supportedClasses : List String)
      (suggestions : List String)
  | noEstimate (target : String) (failReasons : List String)
deriving DecidableEq, Repr

/-- Strip the selection-only keys (`select_models.py` lines 151-154):
delete `area`, `energy`, `area_scale`, `energy_scale` from both the
component attributes and the action arguments. -/
def dropSelectionKeys (q : Query) : Query :=
  let dropped := ["area", "energy", "area_scale", "energy_scale"]
  { q with
    componentAttributes := q.componentAttributes.filter (fun p => ¬ dropped.contains p.1),
    actionArguments := q.actionArguments.filter (fun p => ¬ dropped.contains p.1) }

/-- `_get_best_estimate` (`select_models.py` lines 126-279), with the
target dispatch abstracted into the estimation function `estFn`
(the source's `est_func`): strip selection-only keys, split the pool
into supported models and initialization errors, raise the distinct
errors when nothing is supported, otherwise trial in pool order and
return the first success or raise the no-estimate error carrying each
failed candidate's last message. -/
def getBestEstimateWith (estFn : ModelW → Query → Estimation)
    (q : Query) (target : String) (models : List ModelW) (relaxed : Bool) :
    Except ResolverError Estimation :=
  let q := dropSelectionKeys q
  let p := partitionSupported q relaxed models
  if p.1.isEmpty then
    if models.isEmpty then .error .noModelsFound
    else
      let suggestions := suggestionsOf q relaxed models
      if p.2.isEmpty = false then .error (.initFailure suggestions p.2)
      else .error (.notSupported q.componentName (supportedClassesOf models) suggestions)
  else
    let t := trialModels estFn q p.1
    match t.1 with
    | some e =>
        if e.success then .ok e
        else .error (.noEstimate target [e.lastmessage])
    | none =>
        .error (.noEstimate target (t.2.map (fun r => r.2.lastmessage)))

/-- The `target == "energy"` instantiation of `_get_best_estimate`. -/
def getEnergyBest (q : Query) (models : List ModelW) (relaxed : Bool) :
    Except ResolverError Estimation :=
  getBestEstimateWith getEnergyEstimation q "energy" models relaxed

/-- `get_energy` (`select_models.py` lines 282-322): build the query
with the lowercased component name and resolve for energy. -/
def getEnergy (componentName : String) (componentAttributes : List (String × Val))
    (actionName : Option String) (actionArguments : List (String × Val))
    (models : List ModelW) (relaxed : Bool) : Except ResolverError Estimation :=
  getEnergyBest
    { componentName := lowerString componentName,
      componentAttributes := componentAttributes,
      actionName := actionName,
      actionArguments := actionArguments }
    models relaxed

/-- `EnergyLatency` (`model.py` lines 12-17). -/
structure EnergyLatency where
  energy : ℚ
  latency : ℚ
deriving DecidableEq, Repr

instance : Add EnergyLatency :=
  ⟨fun a b => ⟨a.energy + b.energy, a.latency + b.latency⟩⟩

/-- The per-instance state of a `ComponentModel` (`model.py`
`__init__`, lines 242-267) that the `@action` wrapper reads and writes:
the four scale factors, the raw leak power and area, the per-call
energy/latency accumulators, the re-entrancy flag
`_currently_calling_action` (absent before the first action call, which
`getattr(..., False)` reads as false), the direct subcomponents reduced
to their own `(_energy_used, _latency_used)` accumulator pairs, the
`_subcomponents_set` flag, and the optional nominal-bit-width attribute
the `@action` decorator may reference. -/
structure ModelState where
  areaScale : ℚ
  energyScale : ℚ
  latencyScale : ℚ
  leakPowerScale : ℚ
  leakPower : ℚ
  area : ℚ
  energyUsed : ℚ
  latencyUsed : ℚ
  currentlyCallingAction : Bool
  subs : List (ℚ × ℚ)
  subcomponentsSet : Bool
  nominalBits : Option ℚ
deriving DecidableEq, Repr

/-- `ComponentModel.__init__` (`model.py` lines 242-267): a leaf
(subcomponents omitted) must supply both `leak_power` and `area`;
omitted values default to zero; the subcomponents list defaults to
empty and records whether it was explicitly provided. -/
def componentModelInit (leakPower area : Option ℚ)
    (subcomponents : Option (List (ℚ × ℚ))) : Except String ModelState :=
  if subcomponents = none ∧ (leakPower = none ∨ area = none) then
    .error "Either subcomponents must be set, or BOTH leak_power and area must be set."
  else
    .ok
      { areaScale := 1, energyScale := 1, latencyScale := 1, leakPowerScale := 1,
        leakPower := leakPower.getD 0, area := area.getD 0,
        energyUsed := 0, latencyUsed := 0,
        currentlyCallingAction := false,
        subs := subcomponents.getD [],
        subcomponentsSet := subcomponents.isSome,
        nominalBits := none }

/-- What a decorated action body may return (`model.py` lines 92-107):
`None`, an `(energy, latency)` pair, or anything else (invalid). -/
inductive RetVal where
  | retNone
  | retPair (energy latency : ℚ)
  | retInvalid
deriving DecidableEq, Repr

/-- The bit-width scale of the `@action` wrapper (`model.py` lines
73-88): when the decorator declared a bit-width attribute and the
caller passed `bits_per_action`, the scale is
`bits_per_action / getattr(self, nominal)`; a missing nominal attribute
is a fatal error.  Otherwise the scale is one. -/
def bitsWidthScale (bitsDeclared : Bool) (bitsArg : Option ℚ)
    (s : ModelState) : Except String ℚ :=
  if bitsDeclared then
    match bitsArg with
    | some b =>
        match s.nominalBits with
        | none => .error "model has no bits_per_action attribute"
        | some nominal => .ok (b / nominal)
    | none => .ok 1
  else .ok 1

/-- The `@action` wrapper (`model.py` lines 62-156).  In order: save the
re-entrancy flag and set it; zero every direct subcomponent's per-call
accumulators; compute the bit-width scale (`bits_per_action / nominal`,
a missing nominal attribute is a fatal error) when the decorator
declared a bit-width attribute and the caller passed `bits_per_action`;
run the body (exceptions propagate); normalize its return value (`None`
is `(0, 0)` only if `_subcomponents_set` or the subcomponent list is
nonempty, anything but a length-2 pair is an error); then, only when
this is the outermost invocation: scale energy by `energy_scale`, add
and zero each subcomponent's accumulated energy, apply the bit-width
scale and add into `_energy_used`; scale latency by `latency_scale`,
fold each subcomponent's accumulated latency with `max` (pipelined) or
`sum`, zero them, apply the bit-width scale and add into
`_latency_used`.  The `finally` clause sets the flag to false. -/
def actionWrapper (bitsDeclared : Bool) (pipelined : Bool)
    (body : ModelState → Except String (ModelState × RetVal))
    (s : ModelState) (bitsArg : Option ℚ) :
    Except String (ModelState × EnergyLatency) := do
  let was := s.currentlyCallingAction
  let s := { s with currentlyCallingAction := true }
  let s := { s with subs := s.subs.map (fun _ => ((0 : ℚ), (0 : ℚ))) }
  let scale ← bitsWidthScale bitsDeclared bitsArg s
  let (s, ret) ← body s
  let (energyVal, latencyVal) ←
    match ret with
    | .retNone =>
        if s.subcomponentsSet = false ∧ s.subs = [] then
          throw "@action function did not return a value"
        else pure ((0 : ℚ), (0 : ℚ))
    | .retPair e l => pure (e, l)
    | .retInvalid => throw "@action function returned an invalid value"
  if was then
    pure ({ s with currentlyCallingAction := false },
          ⟨energyVal, latencyVal⟩)
  else
    let energyVal := energyVal * s.energyScale
    let energyVal := energyVal + (s.subs.map (fun (p : ℚ × ℚ) => p.1)).sum
    let s := { s with subs := s.subs.map (fun (p : ℚ × ℚ) => ((0 : ℚ), p.2)) }
    let energyVal := energyVal * scale
    let s := { s with energyUsed := s.energyUsed + energyVal }
    let latencyVal := latencyVal * s.latencyScale
    let latencyVal :=
      if pipelined then (s.subs.map (fun (p : ℚ × ℚ) => p.2)).foldl max latencyVal
      else (s.subs.map (fun (p : ℚ × ℚ) => p.2)).foldl (· + ·) latencyVal
    let s := { s with subs := s.subs.map (fun (p : ℚ × ℚ) => (p.1, (0 : ℚ))) }
    let latencyVal := latencyVal * scale
    let s := { s with latencyUsed := s.latencyUsed + latencyVal }
    pure ({ s with currentlyCallingAction := false },
          ⟨energyVal, latencyVal⟩)

/-- The parenthesized decorator form
`@action(bits_per_action=..., pipelined_subcomponents=...)`
(`model.py` lines 54-55): `action` is first entered with `func=None` and
returns `lambda func: action(func, bits_per_action)`; applying that
lambda to the decorated body re-enters `action` passing only
`bits_per_action`, so `pipelined_subcomponents` is left at its default
`False` in the wrapper that is actually built — whatever value the
declaration supplied. -/
def actionDecoratorForm (bitsDeclared : Bool) (pipelinedSubcomponents : Bool)
    (body : ModelState → Except String (ModelState × RetVal)) :
    ModelState → Option ℚ → Except String (ModelState × EnergyLatency) :=
  actionWrapper bitsDeclared false body

/-- `ComponentModel.scale` (`model.py` lines 299-363): a no-op returning
`target` when `target == default`; otherwise multiply each of the four
scale factors whose function was supplied by `f(target, default)`. -/
def ComponentModel.scale (s : ModelState) (key : String) (target default : ℚ)
    (areaScaleFunction energyScaleFunction latencyScaleFunction
      leakPowerScaleFunction : Option (ℚ → ℚ → ℚ)) : ModelState × ℚ :=
  if target = default then (s, target)
  else
    let apply := fun (v : ℚ) (f : Option (ℚ → ℚ → ℚ)) =>
      match f with
      | none => v
      | some f => v * f target default
    ({ s with
        areaScale := apply s.areaScale areaScaleFunction,
        energyScale := apply s.energyScale energyScaleFunction,
        latencyScale := apply s.latencyScale latencyScaleFunction,
        leakPowerScale := apply s.leakPowerScale leakPowerScaleFunction },
      target)

/-- The message-list heap for the frame-effect behaviour of
`FloatEstimation.get_estimation` (`estimator_wrapper.py` lines
108-122): each estimation's `messages` field is a reference into a heap
of Python lists. -/
def MsgHeap : Type := Nat → List String

/-- The cell holding the `messages: List[str] = []` default argument of
`get_estimation`, allocated exactly once when the function is defined,
hence one fixed cell shared by every call that omits `messages`. -/
def defaultMessagesCell : Nat := 0

/-- An `Estimation` as a heap object: the `messages` attribute is a
reference to a list cell. -/
structure EstimationRef where
  value : ℚ
  success : Bool
  messagesRef : Nat
  estimatorName : Option String
deriving DecidableEq, Repr

/-- `FloatEstimation.get_estimation` called without an explicit
`messages` argument: the new object's `messages` attribute is assigned
the (single, shared) default list object. -/
def FloatEstimation.getEstimationDefault (value : ℚ) (success : Bool)
    (estimatorName : Option String) : EstimationRef :=
  { value := value, success := success,
    messagesRef := defaultMessagesCell, estimatorName := estimatorName }

/-- `Estimation.add_messages` (`estimator_wrapper.py` lines 84-92):
`self.messages += messages` extends the referenced list in place. -/
def EstimationRef.addMessages (h : MsgHeap) (e : EstimationRef)
    (msgs : List String) : MsgHeap :=
  Function.update h e.messagesRef (h e.messagesRef ++ msgs)

/-- Reading `estimation.messages` under a heap. -/
def EstimationRef.messages (h : MsgHeap) (e : EstimationRef) : List String :=
  h e.messagesRef

/-! Concrete candidate models and queries used to evaluate the engine on
explicit inputs. -/

/-- A wrapped estimation behaviour that always succeeds with value `v`
(a model whose underlying action runs and returns `v`). -/
def constEstimate (v : ℚ) : Query → Except String Estimation :=
  fun _ => .ok { value := v, success := true, messages := [], name := none }

/-- Pool candidate "ModelB": alias `x`, priority 1/2, succeeds with 5. -/
def c1ModelB : ModelW :=
  { name := "ModelB", names := ["x"], priority := 1/2, requiredInitArgs := [],
    estimateEnergy := constEstimate 5, estimateArea := constEstimate 5,
    estimateLeakPower := constEstimate 5 }

/-- Pool candidate "ModelA": alias `x`, priority 9/10, succeeds with 7. -/
def c1ModelA : ModelW :=
  { name := "ModelA", names := ["x"], priority := 9/10, requiredInitArgs := [],
    estimateEnergy := constEstimate 7, estimateArea := constEstimate 7,
    estimateLeakPower := constEstimate 7 }

/-- A query for component `x`, action `read`, no selection hints. -/
def c1Query : Query :=
  { componentName := "x", componentAttributes := [],
    actionName := some "read", actionArguments := [] }

/-- A model whose only alias is `rowbuffer` (no underscore). -/
def c3Model : ModelW :=
  { name := "RowBufferModel", names := ["rowbuffer"], priority := 1/2,
    requiredInitArgs := [], estimateEnergy := constEstimate 3,
    estimateArea := constEstimate 3, estimateLeakPower := constEstimate 3 }

/-- A query for component `row_buffer` (matches `rowbuffer` only when
underscores are ignored). -/
def c3Query : Query :=
  { componentName := "row_buffer", componentAttributes := [],
    actionName := some "read", actionArguments := [] }

/-- A model with alias `adder` succeeding with 4. -/
def c3wModel : ModelW :=
  { name := "AdderModel", names := ["adder"], priority := 1/2,
    requiredInitArgs := [], estimateEnergy := constEstimate 4,
    estimateArea := constEstimate 4, estimateLeakPower := constEstimate 4 }

/-- A query for component `adder`, action `read`. -/
def c3wQuery : Query :=
  { componentName := "adder", componentAttributes := [],
    actionName := some "read", actionArguments := [] }

/-- The estimation the `adder` resolution returns. -/
def c3wEstimation : Estimation :=
  { value := 4, success := true, messages := [], name := some "AdderModel" }

/-- A model for the instance-count scaling scenario: energy 5, area 2,
leak power 3. -/
def c5Model : ModelW :=
  { name := "C5Model", names := ["reg"], priority := 1/2, requiredInitArgs := [],
    estimateEnergy := constEstimate 5, estimateArea := constEstimate 2,
    estimateLeakPower := constEstimate 3 }

/-- A `reg` query with `n_instances = 3` and action `leak`. -/
def c5QueryLeak : Query :=
  { componentName := "reg", componentAttributes := [("n_instances", .num 3)],
    actionName := some "leak", actionArguments := [] }

/-- A `reg` query with `n_instances = 3` and action `read`. -/
def c5QueryRead : Query :=
  { componentName := "reg", componentAttributes := [("n_instances", .num 3)],
    actionName := some "read", actionArguments := [] }

/-- A model supporting only component `adder`. -/
def c7Model : ModelW :=
  { name := "AdderModel", names := ["adder"], priority := 1/2,
    requiredInitArgs := [], estimateEnergy := constEstimate 1,
    estimateArea := constEstimate 1, estimateLeakPower := constEstimate 1 }

/-- A query for a component no model supports. -/
def c7Query : Query :=
  { componentName := "multiplier", componentAttributes := [],
    actionName := none, actionArguments := [] }

/-- A candidate of priority 1/2 for the threshold-inclusivity scenario. -/
def c10Model : ModelW :=
  { name := "M", names := ["m"], priority := 1/2, requiredInitArgs := [],
    estimateEnergy := constEstimate 9, estimateArea := constEstimate 9,
    estimateLeakPower := constEstimate 9 }

/-- An estimator of accuracy 60 for the threshold-inclusivity scenario. -/
def c10Est : EstimatorW :=
  { name := "E", names := ["m"], percentAccuracy := 60, requiredInitArgs := [] }

/-- The underlying target function for the threshold scenarios. -/
def c10Target : Query → Except String Estimation := constEstimate 9

/-- Its raw estimation. -/
def c10Estimation : Estimation :=
  { value := 9, success := true, messages := [], name := none }

/-- Query whose thresholds exactly equal the candidate's priority and
the estimator's accuracy. -/
def c10QueryEq : Query :=
  { componentName := "m",
    componentAttributes := [("min_priority", .num (1/2)), ("min_accuracy", .num 60)],
    actionName := none, actionArguments := [] }

/-- Query whose thresholds strictly exceed the candidate's priority and
the estimator's accuracy. -/
def c10QueryAbove : Query :=
  { componentName := "m",
    componentAttributes := [("min_priority", .num (3/4)), ("min_accuracy", .num 70)],
    actionName := none, actionArguments := [] }

/-- A leaf model instance with `energy_scale = 2` and no subcomponents. -/
def c2Start : ModelState :=
  { areaScale := 1, energyScale := 2, latencyScale := 1, leakPowerScale := 1,
    leakPower := 0, area := 0, energyUsed := 0, latencyUsed := 0,
    currentlyCallingAction := false, subs := [], subcomponentsSet := false,
    nominalBits := none }

/-- An inner `@action` on the same instance whose body reports
`(1, 0)`. -/
def c2Inner (s : ModelState) : Except String (ModelState × EnergyLatency) :=
  actionWrapper false false (fun st => .ok (st, .retPair 1 0)) s none

/-- The body of an outer `@action` on the same instance: it calls the
inner action twice and reports `(0, 0)` of its own. -/
def c2OuterBody : ModelState → Except String (ModelState × RetVal) := fun st => do
  let r1 ← c2Inner st
  let r2 ← c2Inner r1.1
  .ok (r2.1, .retPair 0 0)

/-- The outer `@action` around `c2OuterBody`. -/
def c2Outer (s : ModelState) : Except String (ModelState × EnergyLatency) :=
  actionWrapper false false c2OuterBody s none

/-- The state `ComponentModel.__init__` produces when given an
explicitly empty subcomponents list (no leak power or area). -/
def c6EmptyListState : ModelState :=
  { areaScale := 1, energyScale := 1, latencyScale := 1, leakPowerScale := 1,
    leakPower := 0, area := 0, energyUsed := 0, latencyUsed := 0,
    currentlyCallingAction := false, subs := [], subcomponentsSet := true,
    nominalBits := none }

/-- A leaf state (subcomponents omitted at construction). -/
def c6LeafState : ModelState :=
  { areaScale := 1, energyScale := 1, latencyScale := 1, leakPowerScale := 1,
    leakPower := 1, area := 1, energyUsed := 0, latencyUsed := 0,
    currentlyCallingAction := false, subs := [], subcomponentsSet := false,
    nominalBits := none }

/-- A composite instance with two subcomponents and all scale factors
one, for the pipelined-latency scenario. -/
def c4State : ModelState :=
  { areaScale := 1, energyScale := 1, latencyScale := 1, leakPowerScale := 1,
    leakPower := 0, area := 0, energyUsed := 0, latencyUsed := 0,
    currentlyCallingAction := false, subs := [(0, 0), (0, 0)],
    subcomponentsSet := true, nominalBits := none }

/-- An action body whose subcomponent actions leave accumulated
latencies 5 and 7 and which reports own `(energy, latency) = (0, 2)`. -/
def c4Body : ModelState → Except String (ModelState × RetVal) :=
  fun st => .ok ({ st with subs := [(0, 5), (0, 7)] }, .retPair 0 2)

/-- An action body that returns `None`. -/
def noneBody : ModelState → Except String (ModelState × RetVal) :=
  fun st => .ok (st, .retNone)

/-- An action body that returns a value that is neither `None` nor a
length-2 pair. -/
def invalidBody : ModelState → Except String (ModelState × RetVal) :=
  fun st => .ok (st, .retInvalid)

/-! Theorems. -/

theorem except_bind_ok {ε α β : Type} (a : α) (f : α → Except ε β) :
    (Except.ok a : Except ε α) >>= f = f a := rfl

theorem except_bind_error {ε α β : Type} (e : ε) (f : α → Except ε β) :
    (Except.error e : Except ε α) >>= f = .error e := rfl

theorem except_pure {ε α : Type} (a : α) :
    (pure a : Except ε α) = .ok a := rfl

theorem except_map_ok {ε α β : Type} (a : α) (f : α → β) :
    (Except.ok a : Except ε α).map f = .ok (f a) := rfl

theorem except_map_error {ε α β : Type} (e : ε) (f : α → β) :
    (Except.error e : Except ε α).map f = .error e := rfl

theorem except_throw {ε α : Type} (e : ε) :
    (throw e : Except ε α) = .error e := rfl

theorem foldl_max_replicate_zero (n : ℕ) :
    (List.replicate n (0 : ℚ)).foldl max 0 = 0 := by
  induction n with
  | zero => rfl
  | succ n ih => simpa [List.replicate_succ, List.foldl, max_self] using ih

theorem foldl_add_replicate_zero (n : ℕ) :
    (List.replicate n (0 : ℚ)).foldl (· + ·) 0 = 0 := by
  induction n with
  | zero => rfl
  | succ n ih => simpa [List.replicate_succ, List.foldl] using ih

/-- Claim C8: for every instance state, key, target and supplied
scale-function family, `scale` with `target = default` returns the
target and leaves the whole state (in particular all four scale
factors) unchanged. -/
theorem scale_noop_when_target_equals_default (s : ModelState) (key : String)
    (t : ℚ) (fa fe fl flp : Option (ℚ → ℚ → ℚ)) :
    ComponentModel.scale s key t t fa fe fl flp = (s, t) := by
  unfold ComponentModel.scale
  simp

/-- Claim C9: two estimations created by
`FloatEstimation.get_estimation` without an explicit `messages` argument
reference the single default message list, so adding a message through
one is observable in the other's messages, whatever the heap held
before. -/
theorem default_messages_shared :
    (FloatEstimation.getEstimationDefault 5 true none).messagesRef
      = (FloatEstimation.getEstimationDefault 7 true (some "other")).messagesRef
  ∧ ∀ h : MsgHeap,
      "shared" ∈ EstimationRef.messages
        (EstimationRef.addMessages h
          (FloatEstimation.getEstimationDefault 5 true none) ["shared"])
        (FloatEstimation.getEstimationDefault 7 true (some "other")) := by
  refine ⟨rfl, fun h => ?_⟩
  simp [EstimationRef.messages, EstimationRef.addMessages,
    FloatEstimation.getEstimationDefault, Function.update]

/-- Claim C2, evaluated at the failing input: on an instance with
`energy_scale = 2` and no subcomponents, an outer action whose body
calls the same instance's inner action (reporting `(1, 0)`) twice and
itself reports `(0, 0)` ends with `_energy_used = 2`, because the first
nested call's `finally` clause cleared the re-entrancy flag instead of
restoring it: the second nested call is treated as outermost, is scaled
by `energy_scale` and accumulated.  Under the claim every nested call
returns the raw pair and the outer call scales and accumulates exactly
once, which here would leave `_energy_used = 0`. -/
theorem nested_action_flag_cleared_double_scales :
    (c2Outer c2Start).map (fun r => (r.1.energyUsed, r.2)) = .ok (2, ⟨0, 0⟩)
  ∧ (c2Inner { c2Start with currentlyCallingAction := true }).map
      (fun r => (r.1.currentlyCallingAction, r.2)) = .ok (false, ⟨1, 0⟩)
  ∧ (c2Inner c2Start).map (fun r => r.2) = .ok ⟨2, 0⟩ := by
  refine ⟨?_, ?_, ?_⟩ <;>
    norm_num [c2Outer, c2Inner, c2OuterBody, c2Start, actionWrapper,
      bitsWidthScale, except_bind_ok, except_bind_error, except_pure,
      except_map_ok, except_map_error, except_throw]

/-- Claim C6, counterexample: a model constructed with an explicitly
empty subcomponents list has no subcomponents, yet an action body
returning `None` is accepted and interpreted as `(0, 0)` instead of
raising the usage error the claim requires. -/
theorem none_return_accepted_with_empty_subcomponent_list :
    componentModelInit none none (some []) = .ok c6EmptyListState
  ∧ c6EmptyListState.subs = []
  ∧ (actionWrapper false false noneBody c6EmptyListState none).map
      (fun r => r.2) = .ok ⟨0, 0⟩ := by
  refine ⟨by decide, rfl, ?_⟩
  norm_num [actionWrapper, bitsWidthScale, noneBody, c6EmptyListState,
    except_bind_ok, except_bind_error, except_pure, except_map_ok,
    except_map_error, except_throw]

/-- Claim C6, amended: a `None` return raises the usage error exactly
when the model's subcomponents were not explicitly provided at
construction and its subcomponent list is empty; otherwise it is
accepted as own-contribution `(0, 0)`; and any return value other than
`None` or a length-2 pair raises an error. -/
theorem none_return_amended (s : ModelState) (pip : Bool) :
    (s.subcomponentsSet = false ∧ s.subs = [] →
        actionWrapper false pip noneBody s none
          = .error "@action function did not return a value")
  ∧ (s.subcomponentsSet = true ∨ s.subs ≠ [] →
        (actionWrapper false pip noneBody s none).map (fun r => r.2)
          = .ok ⟨0, 0⟩)
  ∧ actionWrapper false pip invalidBody s none
      = .error "@action function returned an invalid value" := by
  refine ⟨?_, ?_, ?_⟩
  · rintro ⟨h1, h2⟩
    simp [actionWrapper, bitsWidthScale, noneBody, h1, h2,
      except_bind_ok, except_bind_error, except_pure, except_throw]
  · intro h
    have hcond : ¬ (s.subcomponentsSet = false ∧ s.subs = []) := by
      rcases h with h | h
      · simp [h]
      · simp [h]
    cases hwas : s.currentlyCallingAction with
    | true =>
        simp [actionWrapper, bitsWidthScale, noneBody, hcond, hwas,
          except_bind_ok, except_bind_error, except_pure, except_throw,
          except_map_ok, List.length_eq_zero]
    | false =>
        simp [actionWrapper, bitsWidthScale, noneBody, hcond, hwas,
          except_bind_ok, except_bind_error, except_pure, except_throw,
          except_map_ok, List.length_eq_zero, List.map_replicate,
          foldl_max_replicate_zero, foldl_add_replicate_zero]
  · simp [actionWrapper, bitsWidthScale, invalidBody,
      except_bind_ok, except_bind_error, except_pure, except_throw]

/-- Witness for the amended C6 theorem: a leaf state (subcomponents
omitted) raises on a `None` return, while the explicit-empty-list state
accepts it. -/
theorem none_return_amended_witness :
    actionWrapper false false noneBody c6LeafState none
      = .error "@action function did not return a value"
  ∧ (actionWrapper false false noneBody c6EmptyListState none).map
      (fun r => r.2) = .ok ⟨0, 0⟩ :=
  ⟨(none_return_amended c6LeafState false).1 ⟨rfl, rfl⟩,
   (none_return_amended c6EmptyListState false).2.1 (Or.inl rfl)⟩

/-- Claim C4, evaluated at the failing input: an action declared
pipelined through the decorator, `@action(pipelined_subcomponents=True)`,
reaches its wrapper with the flag dropped (`model.py` line 55 re-enters
`action` forwarding only `bits_per_action`), so on two subcomponents
with accumulated latencies 5 and 7 and own latency 2 (all scale factors
one) it reports the summed latency `2 + 5 + 7 = 14` instead of the
claimed `max(2, 5, 7) = 7`.  The wrapper itself would report 7 had the
declared flag reached it. -/
theorem declared_pipelined_latency_summed :
    (actionDecoratorForm false true c4Body c4State none).map
      (fun r => r.2.latency) = .ok 14
  ∧ (actionWrapper false true c4Body c4State none).map
      (fun r => r.2.latency) = .ok 7
  ∧ (14 : ℚ) ≠ 7 := by
  refine ⟨?_, ?_, by norm_num⟩
  · norm_num [actionDecoratorForm, actionWrapper, bitsWidthScale, c4Body,
      c4State, except_bind_ok, except_pure, except_map_ok]
  · norm_num [actionWrapper, bitsWidthScale, c4Body, c4State,
      except_bind_ok, except_pure, except_map_ok, max_def]

/-- Claim C5: for every candidate and query, a successful area
estimation and a successful leak-power estimation are multiplied by
`n_instances`, a successful energy estimation is multiplied by
`n_instances` exactly when the action name is `leak`, and an energy
estimation for any other action keeps its raw value. -/
theorem n_instances_scaling (m : ModelW) (q : Query) :
    ((callModel m q m.estimateArea).success = true →
        (getAreaEstimation m q).value
          = (callModel m q m.estimateArea).value * nInstancesOf q)
  ∧ ((callModel m q m.estimateLeakPower).success = true →
        (getLeakPowerEstimation m q).value
          = (callModel m q m.estimateLeakPower).value * nInstancesOf q)
  ∧ ((callModel m q m.estimateEnergy).success = true →
      q.actionName = some "leak" →
        (getEnergyEstimation m q).value
          = (callModel m q m.estimateEnergy).value * nInstancesOf q)
  ∧ (q.actionName ≠ some "leak" →
        (getEnergyEstimation m q).value
          = (callModel m q m.estimateEnergy).value) := by
  refine ⟨?_, ?_, ?_, ?_⟩
  · intro hs
    by_cases hv : (callModel m q m.estimateArea).value = 0
    · simp [getAreaEstimation, hv]
    · simp [getAreaEstimation, hv, hs, Estimation.scaleBy, Estimation.addMsgs]
  · intro hs
    by_cases hv : (callModel m q m.estimateLeakPower).value = 0
    · simp [getLeakPowerEstimation, hv]
    · simp [getLeakPowerEstimation, hv, hs, Estimation.scaleBy,
        Estimation.addMsgs]
  · intro hs hl
    by_cases hv : (callModel m q m.estimateEnergy).value = 0
    · simp [getEnergyEstimation, hv]
    · simp [getEnergyEstimation, hv, hs, hl, Estimation.scaleBy,
        Estimation.addMsgs]
  · intro hl
    simp [getEnergyEstimation, hl]

/-- Witness for C5: a model with area 2, leak power 3 and energy 5
under `n_instances = 3`: area and leak power are tripled, `leak`-action
energy is tripled, `read`-action energy is not. -/
theorem n_instances_scaling_witness :
    (getAreaEstimation c5Model c5QueryLeak).value
      = (callModel c5Model c5QueryLeak c5Model.estimateArea).value
          * nInstancesOf c5QueryLeak
  ∧ (getLeakPowerEstimation c5Model c5QueryLeak).value
      = (callModel c5Model c5QueryLeak c5Model.estimateLeakPower).value
          * nInstancesOf c5QueryLeak
  ∧ (getEnergyEstimation c5Model c5QueryLeak).value
      = (callModel c5Model c5QueryLeak c5Model.estimateEnergy).value
          * nInstancesOf c5QueryLeak
  ∧ (getEnergyEstimation c5Model c5QueryRead).value
      = (callModel c5Model c5QueryRead c5Model.estimateEnergy).value :=
  ⟨(n_instances_scaling c5Model c5QueryLeak).1 (by decide),
   (n_instances_scaling c5Model c5QueryLeak).2.1 (by decide),
   (n_instances_scaling c5Model c5QueryLeak).2.2.1 (by decide) (by decide),
   (n_instances_scaling c5Model c5QueryRead).2.2.2 (by decide)⟩

/-- Claim C10: the minimum-priority and minimum-accuracy post-hoc
checks are strict: a candidate whose priority (accuracy) exactly equals
the query's threshold is not failed by the check, and a candidate
strictly below the threshold is failed. -/
theorem min_threshold_inclusive (m : ModelW) (est : EstimatorW) (q : Query)
    (tf : Query → Except String Estimation) (e : Estimation)
    (h : tf q = .ok e) :
    (lookupNum q.componentAttributes "min_priority" = some m.priority →
        callModel m q tf = modelCheck m q { e with name := some m.name })
  ∧ (∀ p, lookupNum q.componentAttributes "min_priority" = some p →
      m.priority < p → (callModel m q tf).success = false)
  ∧ (lookupNum q.componentAttributes "min_accuracy" = some est.percentAccuracy →
        callEstimator est q tf
          = estimatorNameCheck est q { e with name := some est.name })
  ∧ (∀ p, lookupNum q.componentAttributes "min_accuracy" = some p →
      est.percentAccuracy < p → (callEstimator est q tf).success = false) := by
  refine ⟨?_, ?_, ?_, ?_⟩
  · intro hp
    simp [callModel, h, minPriorityCheck, hp, lt_irrefl]
  · intro p hp hlt
    simp [callModel, h, minPriorityCheck, hp, hlt, Estimation.fail]
  · intro ha
    simp [callEstimator, h, minAccuracyCheck, ha, lt_irrefl]
  · intro p ha hlt
    simp [callEstimator, h, minAccuracyCheck, ha, hlt, Estimation.fail]

/-- Witness for C10: with `min_priority = 1/2` a priority-1/2 candidate
passes the check unchanged, with `min_priority = 3/4` it is failed; the
same for an accuracy-60 estimator against `min_accuracy` 60 and 70. -/
theorem min_threshold_inclusive_witness :
    callModel c10Model c10QueryEq c10Target
      = modelCheck c10Model c10QueryEq
          { c10Estimation with name := some c10Model.name }
  ∧ (callModel c10Model c10QueryAbove c10Target).success = false
  ∧ callEstimator c10Est c10QueryEq c10Target
      = estimatorNameCheck c10Est c10QueryEq
          { c10Estimation with name := some c10Est.name }
  ∧ (callEstimator c10Est c10QueryAbove c10Target).success = false :=
  ⟨(min_threshold_inclusive c10Model c10Est c10QueryEq c10Target
      c10Estimation rfl).1 rfl,
   (min_threshold_inclusive c10Model c10Est c10QueryAbove c10Target
      c10Estimation rfl).2.1 (3/4) rfl (by norm_num [c10Model]),
   (min_threshold_inclusive c10Model c10Est c10QueryEq c10Target
      c10Estimation rfl).2.2.1 rfl,
   (min_threshold_inclusive c10Model c10Est c10QueryAbove c10Target
      c10Estimation rfl).2.2.2 70 rfl (by norm_num [c10Est])⟩

/-- Claim C7: an empty candidate pool raises the distinct
"no models found" error; a nonempty pool in which no candidate supports
the requested component name (and none raised during the eligibility
check) raises the "not supported" error carrying the sorted list of all
known supported component names; the two errors are distinct. -/
theorem empty_pool_error_distinct (estFn : ModelW → Query → Estimation)
    (q : Query) (target : String) (models : List ModelW) (relaxed : Bool) :
    getBestEstimateWith estFn q target [] relaxed = .error .noModelsFound
  ∧ (models ≠ [] →
      partitionSupported (dropSelectionKeys q) relaxed models = ([], []) →
      getBestEstimateWith estFn q target models relaxed
        = .error (.notSupported (dropSelectionKeys q).componentName
            (supportedClassesOf models)
            (suggestionsOf (dropSelectionKeys q) relaxed models)))
  ∧ ∀ c n sg,
      (ResolverError.noModelsFound : ResolverError) ≠ .notSupported c n sg := by
  refine ⟨rfl, ?_, by intro c n sg; simp⟩
  intro hne hpart
  rcases models with _ | ⟨m, ms⟩
  · exact absurd rfl hne
  · simp [getBestEstimateWith, hpart]

/-- Witness for C7: the empty pool raises "no models found"; a pool
holding only an `adder` model raises "not supported" for a
`multiplier` query. -/
theorem empty_pool_error_distinct_witness :
    getBestEstimateWith getEnergyEstimation c7Query "energy" [] false
      = .error .noModelsFound
  ∧ getBestEstimateWith getEnergyEstimation c7Query "energy" [c7Model] false
      = .error (.notSupported (dropSelectionKeys c7Query).componentName
          (supportedClassesOf [c7Model])
          (suggestionsOf (dropSelectionKeys c7Query) false [c7Model])) :=
  ⟨(empty_pool_error_distinct getEnergyEstimation c7Query "energy"
      [c7Model] false).1,
   (empty_pool_error_distinct getEnergyEstimation c7Query "energy"
      [c7Model] false).2.1 (by simp) rfl⟩

/-- Claim C1, evaluated at the failing input: with the pool
`[ModelB (priority 1/2), ModelA (priority 9/10)]`, both eligible for
component `x` and both able to succeed, the returned attribution is
`ModelB` — the candidate earlier in pool order — although `ModelA`
has the strictly higher priority and succeeds when trialed (shown on
the singleton pool).  The claim requires the `ModelA` attribution. -/
theorem pool_order_beats_priority :
    getEnergyBest c1Query [c1ModelB, c1ModelA] false
      = .ok { value := 5, success := true, messages := [], name := some "ModelB" }
  ∧ getEnergyBest c1Query [c1ModelA] false
      = .ok { value := 7, success := true, messages := [], name := some "ModelA" }
  ∧ c1ModelB.priority < c1ModelA.priority := by
  refine ⟨by decide, by decide, by norm_num [c1ModelA, c1ModelB]⟩

theorem modelCheck_name (m : ModelW) (q : Query) (e : Estimation) :
    (modelCheck m q e).name = e.name := by
  cases h : lookupVal q.componentAttributes "model" with
  | none => simp [modelCheck, h]
  | some v =>
      simp only [modelCheck, h]
      split <;> rfl

theorem minPriorityCheck_name (m : ModelW) (q : Query) (e : Estimation) :
    (minPriorityCheck m q e).name = e.name := by
  cases h : lookupNum q.componentAttributes "min_priority" with
  | none => simp [minPriorityCheck, h]
  | some mp =>
      simp only [minPriorityCheck, h]
      split <;> rfl

theorem callModel_name (m : ModelW) (q : Query)
    (tf : Query → Except String Estimation) :
    (callModel m q tf).name = some m.name := by
  cases h : tf q with
  | error err => simp [callModel, h]
  | ok e => simp [callModel, h, minPriorityCheck_name, modelCheck_name]

theorem getEnergyEstimation_name (m : ModelW) (q : Query) :
    (getEnergyEstimation m q).name = some m.name := by
  simp only [getEnergyEstimation]
  split
  · simpa [Estimation.scaleBy, Estimation.addMsgs] using callModel_name m q _
  · exact callModel_name m q _

theorem trialModels_first_success (estFn : ModelW → Query → Estimation)
    (q : Query) :
    ∀ (ms : List ModelW) (e : Estimation),
      (trialModels estFn q ms).1 = some e → ∃ m, m ∈ ms ∧ e = estFn m q := by
  intro ms
  induction ms with
  | nil => intro e h; simp [trialModels] at h
  | cons m rest ih =>
      intro e h
      by_cases hs : (estFn m q).success = true
      · rw [show (trialModels estFn q (m :: rest)).1 = some (estFn m q) from by
          simp [trialModels, hs]] at h
        injection h with h'
        exact ⟨m, by simp, h'.symm⟩
      · rw [show (trialModels estFn q (m :: rest)).1
            = (trialModels estFn q rest).1 from by
          simp [trialModels, hs]] at h
        obtain ⟨m', hm', he⟩ := ih e h
        exact ⟨m', by simp [hm'], he⟩

theorem partitionSupported_exact_mem (q : Query) :
    ∀ (ms : List ModelW) (m : ModelW),
      m ∈ (partitionSupported q false ms).1 →
      m ∈ ms ∧ m.names.contains (lowerString q.componentName) = true := by
  intro ms
  induction ms with
  | nil => intro m h; simp [partitionSupported] at h
  | cons m' rest ih =>
      intro m h
      cases hc : isComponentSupported m' q false with
      | ok b =>
          cases b with
          | true =>
              rw [show (partitionSupported q false (m' :: rest)).1
                  = m' :: (partitionSupported q false rest).1 from by
                simp [partitionSupported, hc]] at h
              rcases List.mem_cons.mp h with rfl | hmem
              · refine ⟨List.mem_cons_self _ _, ?_⟩
                by_cases hct :
                    m.names.contains (lowerString q.componentName) = true
                · exact hct
                · rw [isComponentSupported] at hc
                  simp [Bool.not_eq_true] at hct
                  simp [hct] at hc
              · obtain ⟨h1, h2⟩ := ih m hmem
                exact ⟨List.mem_cons_of_mem _ h1, h2⟩
          | false =>
              rw [show (partitionSupported q false (m' :: rest)).1
                  = (partitionSupported q false rest).1 from by
                simp [partitionSupported, hc]] at h
              obtain ⟨h1, h2⟩ := ih m h
              exact ⟨List.mem_cons_of_mem _ h1, h2⟩
      | error err =>
          rw [show (partitionSupported q false (m' :: rest)).1
              = (partitionSupported q false rest).1 from by
            simp [partitionSupported, hc]] at h
          obtain ⟨h1, h2⟩ := ih m h
          exact ⟨List.mem_cons_of_mem _ h1, h2⟩

theorem getBestEstimateWith_ok (estFn : ModelW → Query → Estimation)
    (q : Query) (target : String) (models : List ModelW) (relaxed : Bool)
    (e : Estimation)
    (h : getBestEstimateWith estFn q target models relaxed = .ok e) :
    ∃ m, m ∈ (partitionSupported (dropSelectionKeys q) relaxed models).1
      ∧ e = estFn m (dropSelectionKeys q) := by
  simp only [getBestEstimateWith] at h
  by_cases hemp :
      (partitionSupported (dropSelectionKeys q) relaxed models).1.isEmpty = true
  · rw [if_pos hemp] at h
    split at h
    · exact Except.noConfusion h
    · split at h <;> exact Except.noConfusion h
  · rw [if_neg hemp] at h
    cases ht : (trialModels estFn (dropSelectionKeys q)
        (partitionSupported (dropSelectionKeys q) relaxed models).1).1 with
    | none => rw [ht] at h; exact Except.noConfusion h
    | some e' =>
        rw [ht] at h
        dsimp only at h
        by_cases hs : e'.success = true
        · rw [if_pos hs] at h
          injection h with h'
          obtain ⟨m, hm, hem⟩ :=
            trialModels_first_success estFn (dropSelectionKeys q) _ e' ht
          exact ⟨m, hm, h' ▸ hem⟩
        · rw [if_neg hs] at h
          exact Except.noConfusion h

/-- Claim C3, counterexample: when the caller passes the relaxed
component-name selection flag, the primary eligibility pass itself uses
relaxed (underscore-insensitive) matching: a query for `row_buffer`
selects the model whose only alias is `rowbuffer` — a relaxed-only
match (the exact pass does not match it) — and returns its estimation
in a primary resolution. -/
theorem relaxed_primary_selection :
    getEnergyBest c3Query [c3Model] true
      = .ok { value := 3, success := true, messages := [],
              name := some "RowBufferModel" }
  ∧ c3Model.names.contains (lowerString c3Query.componentName) = false :=
  ⟨by decide, by decide⟩

/-- Claim C3, amended: in the default exact mode
(`_relaxed_component_name_selection = False`), relaxed matching is used
only for "did you mean" suggestions: every estimation returned by a
resolution comes from a candidate whose alias list contains the
lowercased component name exactly.  (When the caller passes the relaxed
flag, the primary eligibility pass itself is relaxed and a relaxed-only
match can win.) -/
theorem exact_mode_winner_matches_exactly (q : Query) (models : List ModelW)
    (e : Estimation) (h : getEnergyBest q models false = .ok e) :
    ∃ m, m ∈ models ∧ e.name = some m.name
      ∧ m.names.contains (lowerString q.componentName) = true := by
  obtain ⟨m, hm, hem⟩ := getBestEstimateWith_ok getEnergyEstimation q
    "energy" models false e h
  obtain ⟨hmem, hct⟩ := partitionSupported_exact_mem (dropSelectionKeys q)
    models m hm
  exact ⟨m, hmem, by rw [hem]; exact getEnergyEstimation_name m _, hct⟩

/-- Witness for the amended C3 theorem: an exact `adder` resolution's
winner carries the exactly-matching alias. -/
theorem exact_mode_winner_matches_exactly_witness :
    ∃ m, m ∈ [c3wModel] ∧ c3wEstimation.name = some m.name
      ∧ m.names.contains (lowerString c3wQuery.componentName) = true :=
  exact_mode_winner_matches_exactly c3wQuery [c3wModel] c3wEstimation
    (by decide)

end HWC
